import Mathlib

/-!
Shallow embedding of the `TimerEngine` component
(`src/js/components/TimerEngine.js`) of the productivity-timer
repository, together with theorems settling the specification claims
about it.

Times are modelled in integer milliseconds (`Int`).  The browser's
callback handles (`requestAnimationFrame` / `setInterval` ids) are
modelled by their truthiness as `Bool` flags.  The two timer callbacks
(the per-frame `tick` closure and the 1 Hz drift-correction interval
body) are modelled as explicit step functions taking the current value
of the monotonic clock `performance.now()` as an argument.  Event
emission is modelled by returning the list of emitted events next to
the new engine state.
-/

namespace TimerEngine

/-- Timer phase: `'focus' | 'shortBreak' | 'longBreak'`. -/
inductive Phase
  | focus
  | shortBreak
  | longBreak
deriving DecidableEq, Repr

/-- Mutable timer state `this.state` of `TimerEngine`. -/
structure TimerState where
  phase : Phase
  remainingTime : Int
  totalTime : Int
  isRunning : Bool
  currentCycle : Int
  sessionCount : Int
deriving DecidableEq, Repr

/-- Configuration `this.config` of `TimerEngine`. -/
structure Config where
  focusTime : Int
  shortBreakTime : Int
  longBreakTime : Int
  longBreakInterval : Int
deriving DecidableEq, Repr

/-- A possibly-incomplete configuration object as passed to
`configure(newConfig)`: each field may be absent (`undefined`). -/
structure ConfigPatch where
  focusTime : Option Int := none
  shortBreakTime : Option Int := none
  longBreakTime : Option Int := none
  longBreakInterval : Option Int := none
deriving DecidableEq, Repr

/-- Events emitted through `this.emit(...)`.  The `progress` payload of a
tick event is the exact rational `1 - remainingTime / totalTime`. -/
inductive Event
  | configured (config : Config)
  | start (phase : Phase) (totalTime remainingTime : Int)
  | pause (phase : Phase) (remainingTime : Int)
  | reset (phase : Phase) (totalTime : Int)
  | tick (remainingTime : Int) (phase : Phase) (progress : Rat)
  | complete (completedPhase newPhase : Phase) (currentCycle sessionCount : Int)
  | phaseChange (fromPhase toPhase : Phase) (cycleCount : Int)
deriving DecidableEq, Repr

/-- The engine object: timer state, configuration and the timing-system
fields of the constructor (`startTimestamp`, `pausedDuration`, `rafId`,
`intervalId`, `lastTickTime`).  The two callback ids are modelled by
whether a callback is currently scheduled. -/
structure Engine where
  state : TimerState
  config : Config
  startTimestamp : Option Int
  pausedDuration : Int
  rafId : Bool
  intervalId : Bool
  lastTickTime : Option Int
deriving DecidableEq, Repr

/-- Initial `this.state` of the constructor. -/
def initialState : TimerState :=
  { phase := .focus
    remainingTime := 25 * 60 * 1000
    totalTime := 25 * 60 * 1000
    isRunning := false
    currentCycle := 0
    sessionCount := 0 }

/-- Initial `this.config` of the constructor. -/
def defaultConfig : Config :=
  { focusTime := 25 * 60 * 1000
    shortBreakTime := 5 * 60 * 1000
    longBreakTime := 15 * 60 * 1000
    longBreakInterval := 4 }

/-- Engine as set up by the constructor (before `loadState`). -/
def defaultEngine : Engine :=
  { state := initialState
    config := defaultConfig
    startTimestamp := none
    pausedDuration := 0
    rafId := false
    intervalId := false
    lastTickTime := none }

/-- Clamp of a duration field:
`Math.max(1000, Math.min(24 * 60 * 60 * 1000, v))`. -/
def clampDuration (v : Int) : Int :=
  max 1000 (min 86400000 v)

/-- Clamp of the long-break interval: `Math.max(1, Math.min(10, v))`. -/
def clampInterval (v : Int) : Int :=
  max 1 (min 10 v)

/-- Source method `validateConfig(config)`: clamps each provided field
into its range and drops nothing; absent fields stay absent. -/
def validateConfig (config : ConfigPatch) : ConfigPatch :=
  { focusTime := config.focusTime.map clampDuration
    shortBreakTime := config.shortBreakTime.map clampDuration
    longBreakTime := config.longBreakTime.map clampDuration
    longBreakInterval := config.longBreakInterval.map clampInterval }

/-- Object spread `{ ...this.config, ...validatedConfig }`. -/
def mergeConfig (c : Config) (p : ConfigPatch) : Config :=
  { focusTime := p.focusTime.getD c.focusTime
    shortBreakTime := p.shortBreakTime.getD c.shortBreakTime
    longBreakTime := p.longBreakTime.getD c.longBreakTime
    longBreakInterval := p.longBreakInterval.getD c.longBreakInterval }

/-- Source method `resetToPhase(phase)`: sets the phase and resets
`remainingTime` and `totalTime` to the configured duration of that
phase. -/
def resetToPhase (e : Engine) (phase : Phase) : Engine :=
  let dur : Int :=
    match phase with
    | .focus => e.config.focusTime
    | .shortBreak => e.config.shortBreakTime
    | .longBreak => e.config.longBreakTime
  { e with
    state := { e.state with phase := phase, remainingTime := dur, totalTime := dur } }

/-- Source method `configure(newConfig)`: merges the validated patch into
the configuration, resets the current phase when the timer is not
running, and emits `timer:configured`. -/
def configure (e : Engine) (newConfig : ConfigPatch) : Engine × List Event :=
  let validatedConfig := validateConfig newConfig
  let e := { e with config := mergeConfig e.config validatedConfig }
  let e := if e.state.isRunning then e else resetToPhase e e.state.phase
  (e, [.configured e.config])

/-- Source method `stopPrecisionTimer()`: cancels both the animation
frame and the interval callback. -/
def stopPrecisionTimer (e : Engine) : Engine :=
  { e with rafId := false, intervalId := false }

/-- Source method `start()`, taking the current value of
`performance.now()`: no-op when already running; otherwise marks the
timer running, captures `startTimestamp` and `lastTickTime`, schedules
both callbacks of `startPrecisionTimer()` and emits `timer:start`. -/
def start (e : Engine) (now : Int) : Engine × List Event :=
  if e.state.isRunning then (e, [])
  else
    let e :=
      { e with
        state := { e.state with isRunning := true }
        startTimestamp := some now
        lastTickTime := some now
        rafId := true
        intervalId := true }
    (e, [.start e.state.phase e.state.totalTime e.state.remainingTime])

/-- Source method `pause()`: no-op when not running; otherwise clears
`isRunning`, cancels both callbacks, and emits `timer:pause` with the
frozen remaining time.  Note that `startTimestamp` is left untouched. -/
def pause (e : Engine) : Engine × List Event :=
  if e.state.isRunning then
    let e := stopPrecisionTimer { e with state := { e.state with isRunning := false } }
    (e, [.pause e.state.phase e.state.remainingTime])
  else (e, [])

/-- Source method `handlePhaseComplete()`: stops the timer, advances the
phase (incrementing `currentCycle`/`sessionCount` on a completed focus
phase and choosing the long break iff the new cycle count is `0` modulo
`longBreakInterval`), resets to the new phase, and then emits
`timer:complete` followed by `timer:phase-change`.  The events are built
from the engine after `stopPrecisionTimer`, so both callbacks are
already cancelled when they fire. -/
def handlePhaseComplete (e : Engine) : Engine × List Event :=
  let completedPhase := e.state.phase
  let e := stopPrecisionTimer { e with state := { e.state with isRunning := false } }
  let e :=
    if completedPhase = .focus then
      let e :=
        { e with
          state :=
            { e.state with
              currentCycle := e.state.currentCycle + 1
              sessionCount := e.state.sessionCount + 1 } }
      if e.state.currentCycle % e.config.longBreakInterval = 0 then
        { e with state := { e.state with phase := .longBreak } }
      else
        { e with state := { e.state with phase := .shortBreak } }
    else
      { e with state := { e.state with phase := .focus } }
  let e := resetToPhase e e.state.phase
  (e,
    [.complete completedPhase e.state.phase e.state.currentCycle e.state.sessionCount,
     .phaseChange completedPhase e.state.phase e.state.currentCycle])

/-- Source method `reset()`: `pause()`, then reset to the focus phase and
zero both counters, then emit `timer:reset`. -/
def reset (e : Engine) : Engine × List Event :=
  let paused := pause e
  let e := resetToPhase paused.1 .focus
  let e := { e with state := { e.state with currentCycle := 0, sessionCount := 0 } }
  (e, paused.2 ++ [.reset e.state.phase e.state.totalTime])

/-- The `tick` closure of `startPrecisionTimer()`, taking the timestamp
`currentTime` passed by `requestAnimationFrame`: returns early when not
running; otherwise subtracts the delta since the last tick from
`remainingTime` (clamped to `≥ 0`), runs `handlePhaseComplete` when the
result reached `0`, and otherwise emits a throttled `timer:tick` and
re-schedules itself. -/
def rafTick (e : Engine) (currentTime : Int) : Engine × List Event :=
  if e.state.isRunning then
    let lastTick := e.lastTickTime.getD 0
    let deltaTime := currentTime - lastTick
    let e := { e with lastTickTime := some currentTime }
    let rem := max 0 (e.state.remainingTime - deltaTime)
    let e := { e with state := { e.state with remainingTime := rem } }
    if rem ≤ 0 then handlePhaseComplete e
    else
      let events :=
        if currentTime.fdiv 100 ≠ (currentTime - deltaTime).fdiv 100 then
          [Event.tick rem e.state.phase (1 - (rem : Rat) / (e.state.totalTime : Rat))]
        else []
      ({ e with rafId := true }, events)
  else (e, [])

/-- The `setInterval` body of `startPrecisionTimer()` (the 1 Hz
low-frequency drift corrector), taking the current value of
`performance.now()`: returns early when not running; otherwise
recomputes the expected remaining time from `startTimestamp` and
overwrites `remainingTime` when the two disagree by more than 100 ms. -/
def intervalTick (e : Engine) (now : Int) : Engine :=
  if e.state.isRunning then
    let actualElapsed := now - e.startTimestamp.getD 0
    let expectedRemaining := e.state.totalTime - actualElapsed
    if 100 < |e.state.remainingTime - expectedRemaining| then
      { e with state := { e.state with remainingTime := max 0 expectedRemaining } }
    else e
  else e

/-- The snapshot written by `saveState()`: the whole state, the whole
configuration and a wall-clock timestamp. -/
structure Snapshot where
  state : TimerState
  config : Config
  timestamp : Int
deriving DecidableEq, Repr

/-- Source method `saveState()`, taking the current `Date.now()`. -/
def saveState (e : Engine) (nowWall : Int) : Snapshot :=
  { state := e.state, config := e.config, timestamp := nowWall }

/-- A possibly-incomplete persisted state object, as produced by
`JSON.parse` of a (possibly hand-corrupted) snapshot: each field may be
absent. -/
structure StatePatch where
  phase : Option Phase := none
  remainingTime : Option Int := none
  totalTime : Option Int := none
  isRunning : Option Bool := none
  currentCycle : Option Int := none
  sessionCount : Option Int := none
deriving DecidableEq, Repr

/-- Result of `JSON.parse(saved)` inside `loadState()` together with the
destructuring and the `state.isRunning = false` assignment: either usable
`state`/`config` objects, or any thrown error / absent item (the `catch`
branch and the early `return`). -/
inductive ParseResult
  | ok (state : StatePatch) (config : ConfigPatch)
  | err
deriving DecidableEq, Repr

/-- Object spread `{ ...this.state, ...state }`. -/
def mergeState (s : TimerState) (p : StatePatch) : TimerState :=
  { phase := p.phase.getD s.phase
    remainingTime := p.remainingTime.getD s.remainingTime
    totalTime := p.totalTime.getD s.totalTime
    isRunning := p.isRunning.getD s.isRunning
    currentCycle := p.currentCycle.getD s.currentCycle
    sessionCount := p.sessionCount.getD s.sessionCount }

/-- Source method `loadState()`: on any parse failure the engine is left
unchanged; otherwise `state.isRunning` is forced to `false` and the
parsed state and config objects are spread over the current ones with no
further validation.  No clock value is consulted. -/
def loadState (e : Engine) (saved : ParseResult) : Engine :=
  match saved with
  | .err => e
  | .ok st cfg =>
    let st := { st with isRunning := some false }
    { e with state := mergeState e.state st, config := mergeConfig e.config cfg }

/-- Conversion of a full saved snapshot back into the parse result that
`JSON.parse` yields for it: every field present. -/
def parseOf (s : Snapshot) : ParseResult :=
  .ok
    { phase := some s.state.phase
      remainingTime := some s.state.remainingTime
      totalTime := some s.state.totalTime
      isRunning := some s.state.isRunning
      currentCycle := some s.state.currentCycle
      sessionCount := some s.state.sessionCount }
    { focusTime := some s.config.focusTime
      shortBreakTime := some s.config.shortBreakTime
      longBreakTime := some s.config.longBreakTime
      longBreakInterval := some s.config.longBreakInterval }

/-- The methods defined on the `TimerEngine` class, in source order. -/
def methods : List String :=
  ["constructor", "on", "off", "emit", "configure", "validateConfig",
   "start", "pause", "reset", "startPrecisionTimer", "stopPrecisionTimer",
   "handlePhaseComplete", "resetToPhase", "bindVisibilityEvents",
   "saveState", "loadState", "getState", "getConfig", "getPhaseLabel",
   "formatTime", "destroy"]

/-- One externally triggered step of the engine: a call into the control
API (`configure`/`start`/`pause`/`reset`) or the firing of one of the two
scheduled callbacks.  Steps that read the monotonic clock carry its
current value. -/
inductive Op
  | configure (c : ConfigPatch)
  | start (now : Int)
  | pause
  | reset
  | rafTick (now : Int)
  | intervalTick (now : Int)
deriving Repr

/-- State effect of one step (events discarded). -/
def applyOp (e : Engine) : Op → Engine
  | .configure c => (configure e c).1
  | .start now => (start e now).1
  | .pause => (pause e).1
  | .reset => (reset e).1
  | .rafTick now => (rafTick e now).1
  | .intervalTick now => intervalTick e now

/-- Running a whole sequence of steps. -/
def runOps (e : Engine) : List Op → Engine
  | [] => e
  | op :: ops => runOps (applyOp e op) ops

/-- The clock value carried by a callback step is at least the timestamp
the engine recorded earlier: `performance.now()` is monotonic. -/
def timeOk (e : Engine) : Op → Bool
  | .rafTick now => e.lastTickTime.all fun t => decide (t ≤ now)
  | .intervalTick now => e.startTimestamp.all fun t => decide (t ≤ now)
  | _ => true

/-- A step sequence respects clock monotonicity along its whole run. -/
def runOk (e : Engine) : List Op → Bool
  | [] => true
  | op :: ops => timeOk e op && runOk (applyOp e op) ops

/-- A configuration whose every field lies inside its documented range. -/
def ConfigValid (c : Config) : Prop :=
  1000 ≤ c.focusTime ∧ c.focusTime ≤ 86400000 ∧
  1000 ≤ c.shortBreakTime ∧ c.shortBreakTime ≤ 86400000 ∧
  1000 ≤ c.longBreakTime ∧ c.longBreakTime ≤ 86400000 ∧
  1 ≤ c.longBreakInterval ∧ c.longBreakInterval ≤ 10

instance (c : Config) : Decidable (ConfigValid c) := by
  unfold ConfigValid; infer_instance

/-- Engine invariant: valid configuration, remaining time within
`[0, totalTime]`, and both timestamps recorded whenever running. -/
def Inv (e : Engine) : Prop :=
  ConfigValid e.config ∧
  0 ≤ e.state.remainingTime ∧
  e.state.remainingTime ≤ e.state.totalTime ∧
  (e.state.isRunning = true → e.startTimestamp.isSome = true ∧ e.lastTickTime.isSome = true)

instance (e : Engine) : Decidable (Inv e) := by
  unfold Inv; infer_instance

theorem clampDuration_bounds (v : Int) :
    1000 ≤ clampDuration v ∧ clampDuration v ≤ 86400000 := by
  unfold clampDuration; omega

theorem clampInterval_bounds (v : Int) :
    1 ≤ clampInterval v ∧ clampInterval v ≤ 10 := by
  unfold clampInterval; omega

theorem getD_clampDuration_bounds {x : Int} (hx1 : 1000 ≤ x) (hx2 : x ≤ 86400000)
    (o : Option Int) :
    1000 ≤ (o.map clampDuration).getD x ∧ (o.map clampDuration).getD x ≤ 86400000 := by
  cases o with
  | none => exact ⟨hx1, hx2⟩
  | some v => simpa using clampDuration_bounds v

theorem getD_clampInterval_bounds {x : Int} (hx1 : 1 ≤ x) (hx2 : x ≤ 10)
    (o : Option Int) :
    1 ≤ (o.map clampInterval).getD x ∧ (o.map clampInterval).getD x ≤ 10 := by
  cases o with
  | none => exact ⟨hx1, hx2⟩
  | some v => simpa using clampInterval_bounds v

theorem configValid_merge {c : Config} (hc : ConfigValid c) (p : ConfigPatch) :
    ConfigValid (mergeConfig c (validateConfig p)) := by
  obtain ⟨h1, h2, h3, h4, h5, h6, h7, h8⟩ := hc
  obtain ⟨hf1, hf2⟩ := getD_clampDuration_bounds h1 h2 p.focusTime
  obtain ⟨hs1, hs2⟩ := getD_clampDuration_bounds h3 h4 p.shortBreakTime
  obtain ⟨hl1, hl2⟩ := getD_clampDuration_bounds h5 h6 p.longBreakTime
  obtain ⟨hi1, hi2⟩ := getD_clampInterval_bounds h7 h8 p.longBreakInterval
  exact ⟨hf1, hf2, hs1, hs2, hl1, hl2, hi1, hi2⟩

theorem inv_resetToPhase {e : Engine} (h : ConfigValid e.config)
    (hrun : e.state.isRunning = false) (p : Phase) :
    Inv (resetToPhase e p) := by
  obtain ⟨h1, h2, h3, h4, h5, h6, h7, h8⟩ := h
  cases p <;> simp [Inv, ConfigValid, resetToPhase, hrun] <;> omega

theorem inv_configure {e : Engine} (h : Inv e) (c : ConfigPatch) :
    Inv (configure e c).1 := by
  obtain ⟨hc, hr0, hrt, hrun⟩ := h
  have hc' : ConfigValid (mergeConfig e.config (validateConfig c)) :=
    configValid_merge hc c
  simp only [configure]
  cases hR : e.state.isRunning
  · simp only [hR, Bool.false_eq_true, if_false]
    apply inv_resetToPhase
    · exact hc'
    · exact hR
  · simp only [hR, if_true]
    exact ⟨hc', hr0, hrt, fun _ => hrun hR⟩

theorem inv_start {e : Engine} (h : Inv e) (now : Int) :
    Inv (start e now).1 := by
  obtain ⟨hc, hr0, hrt, hrun⟩ := h
  simp only [start]
  cases hR : e.state.isRunning
  · simp only [hR, Bool.false_eq_true, if_false]
    exact ⟨hc, hr0, hrt, fun _ => ⟨rfl, rfl⟩⟩
  · simp only [hR, if_true]
    exact ⟨hc, hr0, hrt, hrun⟩

theorem inv_pause {e : Engine} (h : Inv e) : Inv (pause e).1 := by
  obtain ⟨hc, hr0, hrt, hrun⟩ := h
  simp only [pause]
  cases hR : e.state.isRunning
  · simp only [hR, Bool.false_eq_true, if_false]
    exact ⟨hc, hr0, hrt, hrun⟩
  · simp only [hR, if_true]
    exact ⟨hc, hr0, hrt, fun hh => nomatch hh⟩

theorem pause_isRunning (e : Engine) : (pause e).1.state.isRunning = false := by
  simp only [pause]
  cases hR : e.state.isRunning
  · simp only [hR, Bool.false_eq_true, if_false]
  · simp only [hR, if_true]; rfl

theorem inv_reset {e : Engine} (h : Inv e) : Inv (reset e).1 := by
  have hq : Inv (resetToPhase (pause e).1 .focus) :=
    inv_resetToPhase (inv_pause h).1 (pause_isRunning e) .focus
  obtain ⟨hc, hr0, hrt, hrun⟩ := hq
  exact ⟨hc, hr0, hrt, hrun⟩

theorem inv_handlePhaseComplete {e : Engine} (hc : ConfigValid e.config) :
    Inv (handlePhaseComplete e).1 := by
  by_cases h1 : e.state.phase = Phase.focus
  · by_cases h2 :
      (e.state.currentCycle + 1) % e.config.longBreakInterval = 0
    · simp only [handlePhaseComplete, stopPrecisionTimer, h1, if_true, h2]
      apply inv_resetToPhase
      · exact hc
      · rfl
    · simp only [handlePhaseComplete, stopPrecisionTimer, h1, if_true, h2, if_false]
      apply inv_resetToPhase
      · exact hc
      · rfl
  · simp only [handlePhaseComplete, stopPrecisionTimer, h1, if_false]
    apply inv_resetToPhase
    · exact hc
    · rfl

theorem inv_rafTick {e : Engine} (h : Inv e) (now : Int)
    (ht : timeOk e (.rafTick now) = true) :
    Inv (rafTick e now).1 := by
  obtain ⟨hc, hr0, hrt, hrun⟩ := h
  cases hR : e.state.isRunning
  · simp only [rafTick, hR, Bool.false_eq_true, if_false]
    exact ⟨hc, hr0, hrt, hrun⟩
  · obtain ⟨hst, hlt⟩ := hrun hR
    obtain ⟨t, htick⟩ := Option.isSome_iff_exists.mp hlt
    have hdelta : t ≤ now := by
      simp [timeOk, htick] at ht
      exact ht
    simp only [rafTick, hR, if_true, htick, Option.getD_some]
    by_cases hz : max 0 (e.state.remainingTime - (now - t)) ≤ 0
    · simp only [hz, if_true]
      apply inv_handlePhaseComplete
      exact hc
    · simp only [hz, if_false]
      refine ⟨hc, ?_, ?_, fun _ => ⟨hst, rfl⟩⟩
      · dsimp only
        omega
      · dsimp only
        omega

theorem inv_intervalTick {e : Engine} (h : Inv e) (now : Int)
    (ht : timeOk e (.intervalTick now) = true) :
    Inv (intervalTick e now) := by
  obtain ⟨hc, hr0, hrt, hrun⟩ := h
  cases hR : e.state.isRunning
  · simp only [intervalTick, hR, Bool.false_eq_true, if_false]
    exact ⟨hc, hr0, hrt, hrun⟩
  · obtain ⟨hst, hlt⟩ := hrun hR
    obtain ⟨t, hts⟩ := Option.isSome_iff_exists.mp hst
    have hnow : t ≤ now := by
      simp [timeOk, hts] at ht
      exact ht
    simp only [intervalTick, hR, if_true, hts, Option.getD_some]
    by_cases hd :
        100 < |e.state.remainingTime - (e.state.totalTime - (now - t))|
    · simp only [hd, if_true]
      refine ⟨hc, ?_, ?_, fun _ => ⟨rfl, hlt⟩⟩
      · dsimp only
        omega
      · dsimp only
        omega
    · simp only [hd, if_false]
      exact ⟨hc, hr0, hrt, hrun⟩

theorem inv_applyOp {e : Engine} (h : Inv e) {op : Op} (ht : timeOk e op = true) :
    Inv (applyOp e op) := by
  cases op with
  | configure c => exact inv_configure h c
  | start now => exact inv_start h now
  | pause => exact inv_pause h
  | reset => exact inv_reset h
  | rafTick now => exact inv_rafTick h now ht
  | intervalTick now => exact inv_intervalTick h now ht

theorem inv_runOps {e : Engine} (h : Inv e) {ops : List Op}
    (hok : runOk e ops = true) :
    Inv (runOps e ops) := by
  induction ops generalizing e with
  | nil => exact h
  | cons op ops ih =>
    simp only [runOk, Bool.and_eq_true] at hok
    exact ih (inv_applyOp h hok.1) hok.2

/-- Pause/resume scenario exercising the low-frequency drift corrector:
a 10-minute focus phase is configured and started at `t = 0`. -/
def bugConfigured : Engine :=
  (configure defaultEngine { focusTime := some 600000 }).1

/-- Timer started at `t = 0`. -/
def bugStarted : Engine := (start bugConfigured 0).1

/-- Animation-frame tick at `t = 400000`: 200000 ms remain. -/
def bugTicked : Engine := (rafTick bugStarted 400000).1

/-- `pause()` freezes the remaining 200000 ms. -/
def bugPaused : Engine := (pause bugTicked).1

/-- `start()` again at `t = 500000` resumes the countdown. -/
def bugResumed : Engine := (start bugPaused 500000).1

/-- Animation-frame tick at `t = 500500`: 199500 ms remain. -/
def bugTicked2 : Engine := (rafTick bugResumed 500500).1

/-- The 1 Hz drift corrector fires at `t = 501000`. -/
def bugCorrected : Engine := intervalTick bugTicked2 501000

/-- C1: the claim that `remainingTime` never increases while the timer is
running fails on the code.  In the pause/resume trace above, the drift
corrector recomputes the expected remaining time from `startTimestamp`,
which `start()` reset at resume time without accounting for the time
that had already elapsed before the pause; the corrector therefore
overwrites the remaining 199500 ms with 599000 ms — an increase —
while the timer is running and no phase transition has occurred. -/
theorem corrector_increases_remainingTime :
    bugTicked2.state.isRunning = true ∧
    bugCorrected.state.isRunning = true ∧
    bugCorrected.state.phase = bugTicked2.state.phase ∧
    bugTicked2.state.remainingTime = 199500 ∧
    bugCorrected.state.remainingTime = 599000 ∧
    bugTicked2.state.remainingTime < bugCorrected.state.remainingTime := by
  decide

/-- C2: pausing does freeze `remainingTime` (at 200000 ms here) and a
subsequent `start()` initially resumes from that frozen value, but the
rest of the claim fails on the code: `pause()` does not clear the
session anchor (`startTimestamp` stays `some 0`), and once the
low-frequency corrector next runs the countdown does not continue from
the frozen value — it is overwritten with 599000 ms, close to the full
600000 ms duration. -/
theorem resume_not_from_frozen_value :
    bugPaused.state.remainingTime = 200000 ∧
    bugPaused.state.isRunning = false ∧
    bugPaused.startTimestamp = some 0 ∧
    bugResumed.state.remainingTime = 200000 ∧
    bugResumed.state.isRunning = true ∧
    bugCorrected.state.phase = bugResumed.state.phase ∧
    bugCorrected.state.isRunning = true ∧
    bugCorrected.state.remainingTime = 599000 := by
  decide

/-- Helper: `configure` leaves the configuration equal to the validated
merge whether or not the timer is running. -/
theorem configure_config_eq (e : Engine) (p : ConfigPatch) :
    (configure e p).1.config = mergeConfig e.config (validateConfig p) := by
  simp only [configure]
  split
  · rfl
  · rfl

/-- C3 counterexample: `configure` with `focusTime = 0` neither raises
nor leaves the configuration unchanged — the value is clamped to 1000
and applied (the source `configure`/`validateConfig` have no error path
at all), so the claim that an out-of-range field makes the whole call
fail with a `ConfigurationError` and leave state unchanged is false. -/
theorem configure_zero_clamps_not_raises :
    (configure defaultEngine { focusTime := some 0 }).1.config.focusTime = 1000 ∧
    defaultEngine.config.focusTime = 1500000 ∧
    (configure defaultEngine { focusTime := some 0 }).1.config ≠ defaultEngine.config ∧
    (configure defaultEngine { focusTime := some 86400001 }).1.config.focusTime = 86400000 := by
  decide

/-- C3 amended: `configure` never fails; each provided field is clamped
into its range and applied.  In particular `focusTime = 0` is stored as
1000 and `focusTime = 86400001` as 86400000, for every engine state. -/
theorem configure_boundary_values_clamped (e : Engine) :
    (configure e { focusTime := some 0 }).1.config.focusTime = 1000 ∧
    (configure e { focusTime := some 86400001 }).1.config.focusTime = 86400000 := by
  rw [configure_config_eq, configure_config_eq]
  constructor
  · rfl
  · rfl

/-- C5: on a completed focus phase, `handlePhaseComplete` increments the
completed-cycle counter by one and moves to the long break exactly when
the incremented count is a multiple of the configured
`longBreakInterval` (otherwise to the short break); on a completed
break it moves back to focus and leaves the counter unchanged. -/
theorem handlePhaseComplete_cycle_rules (e : Engine) :
    (e.state.phase = Phase.focus →
      (handlePhaseComplete e).1.state.currentCycle = e.state.currentCycle + 1 ∧
      ((handlePhaseComplete e).1.state.phase = Phase.longBreak ↔
        e.config.longBreakInterval ∣ (e.state.currentCycle + 1)) ∧
      ((handlePhaseComplete e).1.state.phase = Phase.longBreak ∨
        (handlePhaseComplete e).1.state.phase = Phase.shortBreak)) ∧
    (e.state.phase ≠ Phase.focus →
      (handlePhaseComplete e).1.state.phase = Phase.focus ∧
      (handlePhaseComplete e).1.state.currentCycle = e.state.currentCycle) := by
  constructor
  · intro h1
    by_cases h2 : (e.state.currentCycle + 1) % e.config.longBreakInterval = 0
    · simp only [handlePhaseComplete, stopPrecisionTimer, resetToPhase, h1, if_true, h2]
      refine ⟨trivial, ?_, Or.inl trivial⟩
      simp only [true_iff]
      exact Int.dvd_of_emod_eq_zero h2
    · simp only [handlePhaseComplete, stopPrecisionTimer, resetToPhase, h1, if_true, h2,
        if_false]
      refine ⟨trivial, ?_, Or.inr trivial⟩
      constructor
      · intro hfalse
        exact absurd hfalse (by simp)
      · intro hdvd
        exact absurd (Int.emod_eq_zero_of_dvd hdvd) h2
  · intro h1
    simp only [handlePhaseComplete, stopPrecisionTimer, resetToPhase, h1, if_false]
    exact ⟨trivial, trivial⟩

/-- Witness for `handlePhaseComplete_cycle_rules`: completing the focus
phase of the default engine (interval 4) increments the counter to 1 and
yields a short break; completing a short-break phase returns to focus. -/
theorem handlePhaseComplete_cycle_rules_witness :
    (handlePhaseComplete defaultEngine).1.state.currentCycle =
      defaultEngine.state.currentCycle + 1 ∧
    (handlePhaseComplete (resetToPhase defaultEngine .shortBreak)).1.state.phase =
      Phase.focus :=
  ⟨((handlePhaseComplete_cycle_rules defaultEngine).1 rfl).1,
   ((handlePhaseComplete_cycle_rules (resetToPhase defaultEngine .shortBreak)).2
      (by decide)).1⟩

/-- C6: the `TimerEngine` class exposes no `skip()` operation at all —
its method list (in source order) does not contain `skip`, although the
repository's own API reference documents `skip(): void` and binds it to
the `S` shortcut. -/
theorem skip_not_a_method : "skip" ∉ methods := by decide

/-- C7: rehydrating any saved snapshot forces `isRunning` to `false`
(even when the snapshot recorded `true`) and adopts the saved
`remainingTime` verbatim; `loadState` consults no clock, so the value is
not recomputed against elapsed real time. -/
theorem loadState_forces_not_running (e0 e : Engine) (wall : Int) :
    (loadState e0 (parseOf (saveState e wall))).state.isRunning = false ∧
    (loadState e0 (parseOf (saveState e wall))).state.remainingTime =
      e.state.remainingTime := by
  constructor
  · rfl
  · rfl

/-- Parse result of a snapshot whose configuration carries the
out-of-range duration `focusTime = 0`. -/
def corruptSnapshotParse : ParseResult :=
  .ok {} { focusTime := some 0 }

/-- C8 counterexample: a parsed snapshot field is adopted without the
`configure()` validation path.  The snapshot value `focusTime = 0` ends
up verbatim in the configuration, below the minimum 1000 that
`validateConfig` would have enforced, so the claim that every snapshot
field passes through the same validation as `configure()` is false. -/
theorem loadState_adopts_unvalidated_field :
    (loadState defaultEngine corruptSnapshotParse).config.focusTime = 0 ∧
    (validateConfig { focusTime := some 0 }).focusTime = some 1000 ∧
    ¬ 1000 ≤ (loadState defaultEngine corruptSnapshotParse).config.focusTime := by
  decide

/-- C8 amended: construction always succeeds — a failed parse leaves the
defaults untouched and a successful parse still forces
`isRunning = false` — but fields of a parsed snapshot are merged into
the state and configuration verbatim, with no validation. -/
theorem loadState_total_and_raw (e : Engine) (st : StatePatch) (cfg : ConfigPatch)
    (v : Int) (hv : cfg.focusTime = some v) :
    loadState e .err = e ∧
    (loadState e (.ok st cfg)).config.focusTime = v ∧
    (loadState e (.ok st cfg)).state.isRunning = false := by
  refine ⟨rfl, ?_, rfl⟩
  simp [loadState, mergeConfig, hv]

/-- Witness for `loadState_total_and_raw` at the corrupt snapshot with
`focusTime = 0`. -/
theorem loadState_total_and_raw_witness :
    loadState defaultEngine .err = defaultEngine ∧
    (loadState defaultEngine (.ok {} { focusTime := some 0 })).config.focusTime = 0 ∧
    (loadState defaultEngine (.ok {} { focusTime := some 0 })).state.isRunning = false :=
  loadState_total_and_raw defaultEngine {} { focusTime := some 0 } 0 rfl

/-- C9: `configure` is total — every provided numeric field is clamped
into its range (durations into `[1000, 86400000]`, the long-break
interval into `[1, 10]`) and applied, and every field not provided keeps
its previous value. -/
theorem configure_clamps_and_merges (e : Engine) (p : ConfigPatch) :
    (∀ v, p.focusTime = some v →
      (configure e p).1.config.focusTime = clampDuration v ∧
      1000 ≤ (configure e p).1.config.focusTime ∧
      (configure e p).1.config.focusTime ≤ 86400000) ∧
    (p.focusTime = none →
      (configure e p).1.config.focusTime = e.config.focusTime) ∧
    (∀ v, p.shortBreakTime = some v →
      (configure e p).1.config.shortBreakTime = clampDuration v ∧
      1000 ≤ (configure e p).1.config.shortBreakTime ∧
      (configure e p).1.config.shortBreakTime ≤ 86400000) ∧
    (p.shortBreakTime = none →
      (configure e p).1.config.shortBreakTime = e.config.shortBreakTime) ∧
    (∀ v, p.longBreakTime = some v →
      (configure e p).1.config.longBreakTime = clampDuration v ∧
      1000 ≤ (configure e p).1.config.longBreakTime ∧
      (configure e p).1.config.longBreakTime ≤ 86400000) ∧
    (p.longBreakTime = none →
      (configure e p).1.config.longBreakTime = e.config.longBreakTime) ∧
    (∀ v, p.longBreakInterval = some v →
      (configure e p).1.config.longBreakInterval = clampInterval v ∧
      1 ≤ (configure e p).1.config.longBreakInterval ∧
      (configure e p).1.config.longBreakInterval ≤ 10) ∧
    (p.longBreakInterval = none →
      (configure e p).1.config.longBreakInterval = e.config.longBreakInterval) := by
  rw [configure_config_eq]
  refine ⟨?_, ?_, ?_, ?_, ?_, ?_, ?_, ?_⟩
  · intro v hv
    have heq : (mergeConfig e.config (validateConfig p)).focusTime = clampDuration v := by
      simp [mergeConfig, validateConfig, hv]
    rw [heq]
    exact ⟨rfl, (clampDuration_bounds v).1, (clampDuration_bounds v).2⟩
  · intro hv
    simp [mergeConfig, validateConfig, hv]
  · intro v hv
    have heq :
        (mergeConfig e.config (validateConfig p)).shortBreakTime = clampDuration v := by
      simp [mergeConfig, validateConfig, hv]
    rw [heq]
    exact ⟨rfl, (clampDuration_bounds v).1, (clampDuration_bounds v).2⟩
  · intro hv
    simp [mergeConfig, validateConfig, hv]
  · intro v hv
    have heq :
        (mergeConfig e.config (validateConfig p)).longBreakTime = clampDuration v := by
      simp [mergeConfig, validateConfig, hv]
    rw [heq]
    exact ⟨rfl, (clampDuration_bounds v).1, (clampDuration_bounds v).2⟩
  · intro hv
    simp [mergeConfig, validateConfig, hv]
  · intro v hv
    have heq :
        (mergeConfig e.config (validateConfig p)).longBreakInterval = clampInterval v := by
      simp [mergeConfig, validateConfig, hv]
    rw [heq]
    exact ⟨rfl, (clampInterval_bounds v).1, (clampInterval_bounds v).2⟩
  · intro hv
    simp [mergeConfig, validateConfig, hv]

/-- Witness for `configure_clamps_and_merges`: all four fields provided
with out-of-range values are clamped to 1000, 86400000, 1000 and 1. -/
theorem configure_clamps_and_merges_witness :
    (configure defaultEngine
      ⟨some 0, some 100000000, some 500, some 0⟩).1.config.focusTime = clampDuration 0 ∧
    (configure defaultEngine
      ⟨some 0, some 100000000, some 500, some 0⟩).1.config.shortBreakTime =
        clampDuration 100000000 ∧
    (configure defaultEngine
      ⟨some 0, some 100000000, some 500, some 0⟩).1.config.longBreakTime =
        clampDuration 500 ∧
    (configure defaultEngine
      ⟨some 0, some 100000000, some 500, some 0⟩).1.config.longBreakInterval =
        clampInterval 0 := by
  obtain ⟨hf, _, hs, _, hl, _, hi, _⟩ :=
    configure_clamps_and_merges defaultEngine ⟨some 0, some 100000000, some 500, some 0⟩
  exact ⟨(hf 0 rfl).1, (hs 100000000 rfl).1, (hl 500 rfl).1, (hi 0 rfl).1⟩

/-- C4: starting from any engine satisfying the invariant (in particular
from the constructor state under any valid configuration, with further
`configure` calls available as steps), every sequence of
`configure`/`start`/`pause`/`reset` calls interleaved with
animation-frame ticks and drift-corrector runs under a monotone clock
leaves `remainingTime` within `[0, totalTime]` after every operation
(the run of every prefix is an instance of this statement). -/
theorem remainingTime_within_bounds (e : Engine) (ops : List Op)
    (h : Inv e) (hok : runOk e ops = true) :
    0 ≤ (runOps e ops).state.remainingTime ∧
    (runOps e ops).state.remainingTime ≤ (runOps e ops).state.totalTime := by
  obtain ⟨_, h1, h2, _⟩ := inv_runOps h hok
  exact ⟨h1, h2⟩

/-- Operation sequence for the witness of `remainingTime_within_bounds`:
the pause/resume scenario followed by a reset. -/
def witnessOps : List Op :=
  [.start 0, .rafTick 400, .pause, .start 500, .intervalTick 1500, .reset]

/-- Witness for `remainingTime_within_bounds` on the default engine and
a concrete six-step run. -/
theorem remainingTime_within_bounds_witness :
    Inv defaultEngine ∧
    runOk defaultEngine witnessOps = true ∧
    (0 ≤ (runOps defaultEngine witnessOps).state.remainingTime ∧
      (runOps defaultEngine witnessOps).state.remainingTime ≤
        (runOps defaultEngine witnessOps).state.totalTime) :=
  ⟨by decide, by decide,
    remainingTime_within_bounds defaultEngine witnessOps (by decide) (by decide)⟩

/-- Helper: whatever the phase, `handlePhaseComplete` leaves the timer
stopped with both callbacks cancelled, the new phase at its full
duration, and emits exactly the `timer:complete` and
`timer:phase-change` events, built from the already-stopped engine. -/
theorem handlePhaseComplete_shape (e : Engine) :
    (handlePhaseComplete e).1.state.isRunning = false ∧
    (handlePhaseComplete e).1.rafId = false ∧
    (handlePhaseComplete e).1.intervalId = false ∧
    (handlePhaseComplete e).1.state.remainingTime =
      (handlePhaseComplete e).1.state.totalTime ∧
    (handlePhaseComplete e).2 =
      [Event.complete e.state.phase (handlePhaseComplete e).1.state.phase
        (handlePhaseComplete e).1.state.currentCycle
        (handlePhaseComplete e).1.state.sessionCount,
       Event.phaseChange e.state.phase (handlePhaseComplete e).1.state.phase
        (handlePhaseComplete e).1.state.currentCycle] := by
  by_cases h1 : e.state.phase = Phase.focus
  · by_cases h2 : (e.state.currentCycle + 1) % e.config.longBreakInterval = 0
    · simp only [handlePhaseComplete, stopPrecisionTimer, resetToPhase, h1, if_true, h2]
      exact ⟨trivial, trivial, trivial, trivial, trivial⟩
    · simp only [handlePhaseComplete, stopPrecisionTimer, resetToPhase, h1, if_true, h2,
        if_false]
      exact ⟨trivial, trivial, trivial, trivial, trivial⟩
  · simp only [handlePhaseComplete, stopPrecisionTimer, resetToPhase, h1, if_false]
    exact ⟨trivial, trivial, trivial, trivial, trivial⟩

/-- C10: when a running timer's remaining time reaches 0 at an
animation-frame tick (natural phase completion), the resulting engine is
stopped — `isRunning = false` with both the animation-frame and the
interval callback cancelled — the next phase sits at its full duration
without starting automatically, and the step emits exactly the
`timer:complete` and `timer:phase-change` events; in the source the
cancellation (`stopPrecisionTimer`) happens before either event is
emitted, and correspondingly the events here are produced from the
already-stopped engine. -/
theorem natural_completion_stops_timer (e : Engine) (now : Int)
    (hrun : e.state.isRunning = true)
    (hdone : e.state.remainingTime - (now - e.lastTickTime.getD 0) ≤ 0) :
    (rafTick e now).1.state.isRunning = false ∧
    (rafTick e now).1.rafId = false ∧
    (rafTick e now).1.intervalId = false ∧
    (rafTick e now).1.state.remainingTime = (rafTick e now).1.state.totalTime ∧
    (rafTick e now).2 =
      [Event.complete e.state.phase (rafTick e now).1.state.phase
        (rafTick e now).1.state.currentCycle (rafTick e now).1.state.sessionCount,
       Event.phaseChange e.state.phase (rafTick e now).1.state.phase
        (rafTick e now).1.state.currentCycle] := by
  have hz :
      max 0 (e.state.remainingTime - (now - e.lastTickTime.getD 0)) ≤ 0 := by omega
  simp only [rafTick, hrun, if_true]
  rw [if_pos hz]
  exact handlePhaseComplete_shape _

/-- Engine used by the witness of `natural_completion_stops_timer`: a
1-second focus phase started at `t = 0`. -/
def witnessRunning : Engine :=
  (start (configure defaultEngine { focusTime := some 1000 }).1 0).1

/-- Witness for `natural_completion_stops_timer`: the 1-second focus
phase completes at the tick at `t = 5000` and the timer ends stopped. -/
theorem natural_completion_stops_timer_witness :
    witnessRunning.state.isRunning = true ∧
    witnessRunning.state.remainingTime -
      (5000 - witnessRunning.lastTickTime.getD 0) ≤ 0 ∧
    (rafTick witnessRunning 5000).1.state.isRunning = false :=
  ⟨by decide, by decide,
    (natural_completion_stops_timer witnessRunning 5000 (by decide) (by decide)).1⟩

end TimerEngine
